import Mathlib

/-!
Shallow embedding of `src/conversion_optimizer.py` (class `ConversionOptimizer`
and the module-level demo driver `analyze_tapeplayers_page`).

Modelling choices:
* Python's `page_data` dict is modelled by `PageData`, a record of `Option`
  fields, one per key the engine reads (`content`, `image_count`, `cta_count`,
  `load_time`, `mobile_optimized`, `benefits`); `dict.get(key, default)`
  becomes `Option.getD`.  The demo dict's extra keys (`url`, `title`, `price`)
  are never read by `analyze_page` and are not modelled.
* Python floats (`load_time`) are modelled by `ℚ`; the only values involved
  (0, 2.5, 3) are exact in both representations.
* `datetime.now().isoformat()` is modelled by a `String` parameter
  `analysis_date` threaded into `analyze_page`; it is the report's only
  input-independent field.
* Python `"needle" in haystack` (substring test) is `strIn`; `str.lower()` is
  `strLower`, a character-wise ASCII lower-casing (all strings this program
  lower-cases are ASCII).
* The mutable accumulator `self.recommendations` is modelled by list
  concatenation in source order: the seven `_analyze_*` methods are pure
  functions returning the sublists they would append.
* `_analyze_tapeplayers_page`, `_add_speed_test_analysis`,
  `_add_scoring_analysis` and `_add_revenue_loss_calculations` are dead code
  (never called by `analyze_page` nor by the demo driver) and are not modelled.
-/

namespace ConvOpt

/-- Python `class Priority(Enum)`. -/
inductive Priority where
  | HIGH
  | MEDIUM
  | LOW
deriving DecidableEq

/-- The `.value` attribute of the `Priority` enum. -/
def Priority.value : Priority → String
  | .HIGH => "High"
  | .MEDIUM => "Medium"
  | .LOW => "Low"

/-- Python `class Category(Enum)`. -/
inductive Category where
  | TRUST_CREDIBILITY
  | UX
  | PRICING_VALUE
  | SOCIAL_PROOF
  | CTA
  | CONTENT_QUALITY
  | TECHNICAL
  | OVERALL
deriving DecidableEq

/-- The `.value` attribute of the `Category` enum. -/
def Category.value : Category → String
  | .TRUST_CREDIBILITY => "Trust & Credibility"
  | .UX => "User Experience"
  | .PRICING_VALUE => "Pricing & Value"
  | .SOCIAL_PROOF => "Social Proof"
  | .CTA => "Call to Action"
  | .CONTENT_QUALITY => "Content Quality"
  | .TECHNICAL => "Technical"
  | .OVERALL => "Overall Performance"

/-- Python `@dataclass OptimizationRecommendation`. -/
structure OptimizationRecommendation where
  category : Category
  priority : Priority
  title : String
  description : String
  impact : String
  implementation : String
  estimated_improvement : String
  code_example : Option String := none
deriving DecidableEq

/-- The `page_data` dict, restricted to the keys `analyze_page` reads.
A `none` field models an absent key; `dict.get(key, default)` is `getD`. -/
structure PageData where
  content : Option String := none
  image_count : Option Nat := none
  cta_count : Option Nat := none
  load_time : Option ℚ := none
  mobile_optimized : Option Bool := none
  benefits : Option (List String) := none
deriving DecidableEq

/-- Whether `needle` starts `hay` (character lists). -/
def charsStart : List Char → List Char → Bool
  | [], _ => true
  | _ :: _, [] => false
  | a :: as, b :: bs => a == b && charsStart as bs

/-- Whether `needle` occurs contiguously somewhere in `hay`. -/
def charsSub (needle : List Char) : List Char → Bool
  | [] => needle.isEmpty
  | b :: bs => charsStart needle (b :: bs) || charsSub needle bs

/-- Python `needle in hay` for strings: contiguous-substring test. -/
def strIn (needle hay : String) : Bool :=
  charsSub needle.data hay.data

/-- Python `str.lower()`, applied character by character.  `Char.toLower`
lowers exactly the ASCII letters, which agrees with Python on every string
this program matches against (all are ASCII). -/
def strLower (s : String) : String :=
  ⟨s.data.map Char.toLower⟩

/-- The recommendation appended by `_analyze_trust_elements` when `"warranty"`
is absent from the lower-cased content (rule 1). -/
def rec_warranty : OptimizationRecommendation :=
  { category := Category.TRUST_CREDIBILITY
    priority := Priority.HIGH
    title := "Add Prominent Warranty Information"
    description := "The page mentions warranty but it's not prominently displayed. Add a trust badge or warranty guarantee section."
    impact := "Increases customer confidence and reduces purchase anxiety"
    implementation := "Add a warranty badge near the price and create a dedicated warranty section"
    estimated_improvement := "15-25% increase in conversion rate"
    code_example := some "\n<div class=\"warranty-badge\">\n    <i class=\"fas fa-shield-alt\"></i>\n    <span>365-Day Warranty</span>\n    <small>Full replacement or refund</small>\n</div>\n                " }

/-- The recommendation appended by `_analyze_trust_elements` when none of
`"ssl"`, `"secure"`, `"trusted"` occurs in the lower-cased content (rule 2). -/
def rec_security_badges : OptimizationRecommendation :=
  { category := Category.TRUST_CREDIBILITY
    priority := Priority.MEDIUM
    title := "Add Security Trust Badges"
    description := "Missing security indicators that build customer trust"
    impact := "Reduces cart abandonment due to security concerns"
    implementation := "Add SSL certificate badges, payment security icons, and trust seals"
    estimated_improvement := "8-12% reduction in cart abandonment" }

/-- The recommendation appended by `_analyze_user_experience` when
`image_count < 3` (rule 3). -/
def rec_product_images : OptimizationRecommendation :=
  { category := Category.UX
    priority := Priority.HIGH
    title := "Add More Product Images"
    description := "Limited product images reduce customer confidence in purchase decision"
    impact := "Better product visualization leads to higher conversion rates"
    implementation := "Add multiple angles, close-ups, and usage demonstration images"
    estimated_improvement := "20-30% increase in conversion rate" }

/-- The recommendation appended by `_analyze_user_experience` when `"video"`
is absent from the lower-cased content (rule 4). -/
def rec_demo_video : OptimizationRecommendation :=
  { category := Category.UX
    priority := Priority.MEDIUM
    title := "Add Product Demo Video"
    description := "Video demonstrations significantly improve conversion rates"
    impact := "Shows product in action and builds confidence"
    implementation := "Create a 30-60 second product demonstration video"
    estimated_improvement := "25-40% increase in conversion rate" }

/-- The recommendation appended by `_analyze_pricing_strategy` when
`"regular price"` occurs in the lower-cased content (rule 5). -/
def rec_price_anchoring : OptimizationRecommendation :=
  { category := Category.PRICING_VALUE
    priority := Priority.MEDIUM
    title := "Improve Price Anchoring"
    description := "Current price display could be more compelling"
    impact := "Better price perception increases perceived value"
    implementation := "Show original price crossed out, highlight savings amount"
    estimated_improvement := "10-15% increase in conversion rate"
    code_example := some "\n<div class=\"pricing\">\n    <span class=\"original-price\">$299.00</span>\n    <span class=\"current-price\">$249.00</span>\n    <span class=\"savings\">Save $50 (17% off)</span>\n</div>\n                " }

/-- The recommendation appended by `_analyze_pricing_strategy` when fewer than
5 benefits are listed (rule 6). -/
def rec_value_proposition : OptimizationRecommendation :=
  { category := Category.PRICING_VALUE
    priority := Priority.HIGH
    title := "Strengthen Value Proposition"
    description := "Limited benefits listed may not justify the price point"
    impact := "Clear value proposition increases willingness to pay"
    implementation := "Add more specific benefits and use cases"
    estimated_improvement := "15-25% increase in conversion rate" }

/-- The recommendation appended by `_analyze_social_proof` when
`"customer reviews"` is absent from the lower-cased content (rule 7). -/
def rec_customer_reviews : OptimizationRecommendation :=
  { category := Category.SOCIAL_PROOF
    priority := Priority.HIGH
    title := "Add Customer Reviews Section"
    description := "Missing customer reviews and testimonials"
    impact := "Social proof is crucial for building trust and credibility"
    implementation := "Add a reviews section with star ratings and customer testimonials"
    estimated_improvement := "20-35% increase in conversion rate"
    code_example := some "\n<div class=\"reviews-section\">\n    <h3>Customer Reviews</h3>\n    <div class=\"rating\">‚òÖ‚òÖ‚òÖ‚òÖ‚òÖ 4.8/5 (127 reviews)</div>\n    <div class=\"testimonial\">\n        \"Perfect for digitizing my old family videos. Easy to use and great quality!\"\n        - Sarah M.\n    </div>\n</div>\n                " }

/-- The recommendation appended by `_analyze_social_proof` when `"sold out"`
occurs in the lower-cased content (rule 8). -/
def rec_urgency : OptimizationRecommendation :=
  { category := Category.SOCIAL_PROOF
    priority := Priority.MEDIUM
    title := "Add Urgency Elements"
    description := "Limited stock creates urgency but could be better communicated"
    impact := "Creates fear of missing out and encourages immediate purchase"
    implementation := "Add countdown timers, stock indicators, and urgency messaging"
    estimated_improvement := "10-20% increase in conversion rate" }

/-- The recommendation appended by `_analyze_call_to_actions` when
`"add to cart"` occurs in the lower-cased content (rule 9). -/
def rec_cta_button : OptimizationRecommendation :=
  { category := Category.CTA
    priority := Priority.HIGH
    title := "Optimize CTA Button"
    description := "Current CTA could be more compelling and action-oriented"
    impact := "Better CTAs lead to higher click-through rates"
    implementation := "Use action-oriented text, add urgency, and improve button design"
    estimated_improvement := "15-25% increase in click-through rate"
    code_example := some "\n<button class=\"cta-button primary\">\n    <span class=\"main-text\">Get Your Hi8 Player Now</span>\n    <span class=\"sub-text\">Free Shipping ‚Ä¢ 365-Day Warranty</span>\n</button>\n                " }

/-- The recommendation appended by `_analyze_call_to_actions` when
`cta_count < 2` (rule 10). -/
def rec_multiple_ctas : OptimizationRecommendation :=
  { category := Category.CTA
    priority := Priority.MEDIUM
    title := "Add Multiple CTAs"
    description := "Single CTA may not capture all potential customers"
    impact := "Multiple CTAs increase chances of conversion"
    implementation := "Add CTAs at different scroll positions and in different formats"
    estimated_improvement := "10-15% increase in conversion rate" }

/-- The recommendation appended by `_analyze_content_quality` when
`"specifications"` is absent from the lower-cased content (rule 11). -/
def rec_specifications : OptimizationRecommendation :=
  { category := Category.CONTENT_QUALITY
    priority := Priority.MEDIUM
    title := "Add Detailed Specifications"
    description := "Missing technical specifications may reduce customer confidence"
    impact := "Detailed specs help customers make informed decisions"
    implementation := "Add a specifications table with all technical details"
    estimated_improvement := "8-12% increase in conversion rate" }

/-- The recommendation appended by `_analyze_content_quality` when `"faq"`
is absent from the lower-cased content (rule 12). -/
def rec_faq : OptimizationRecommendation :=
  { category := Category.CONTENT_QUALITY
    priority := Priority.LOW
    title := "Add FAQ Section"
    description := "FAQ section addresses common customer concerns"
    impact := "Reduces customer service inquiries and builds confidence"
    implementation := "Add common questions about compatibility, setup, and usage"
    estimated_improvement := "5-10% increase in conversion rate" }

/-- The recommendation appended by `_analyze_technical_elements` when
`mobile_optimized` is falsy (rule 13). -/
def rec_mobile : OptimizationRecommendation :=
  { category := Category.TECHNICAL
    priority := Priority.HIGH
    title := "Improve Mobile Experience"
    description := "Mobile optimization is crucial for modern e-commerce"
    impact := "Better mobile experience increases mobile conversions"
    implementation := "Ensure responsive design, fast loading, and mobile-friendly CTAs"
    estimated_improvement := "20-30% increase in mobile conversion rate" }

/-- The recommendation appended by `_analyze_technical_elements` when
`load_time > 3` (rule 14). -/
def rec_page_speed : OptimizationRecommendation :=
  { category := Category.TECHNICAL
    priority := Priority.MEDIUM
    title := "Optimize Page Speed"
    description := "Slow loading times increase bounce rates"
    impact := "Faster pages lead to better user experience and higher conversions"
    implementation := "Optimize images, minimize HTTP requests, use CDN"
    estimated_improvement := "10-20% reduction in bounce rate" }

/-- `ConversionOptimizer._analyze_trust_elements` (rules 1 and 2), as the list
of recommendations it appends in order. -/
def ConversionOptimizer.analyze_trust_elements (page_data : PageData) : List OptimizationRecommendation :=
  (if strIn "warranty" (strLower (page_data.content.getD "")) = false then [rec_warranty] else [])
  ++ (if (["ssl", "secure", "trusted"].any fun badge => strIn badge (strLower (page_data.content.getD ""))) = false
      then [rec_security_badges] else [])

/-- `ConversionOptimizer._analyze_user_experience` (rules 3 and 4). -/
def ConversionOptimizer.analyze_user_experience (page_data : PageData) : List OptimizationRecommendation :=
  (if page_data.image_count.getD 0 < 3 then [rec_product_images] else [])
  ++ (if strIn "video" (strLower (page_data.content.getD "")) = false then [rec_demo_video] else [])

/-- `ConversionOptimizer._analyze_pricing_strategy` (rules 5 and 6). -/
def ConversionOptimizer.analyze_pricing_strategy (page_data : PageData) : List OptimizationRecommendation :=
  (if strIn "regular price" (strLower (page_data.content.getD "")) = true then [rec_price_anchoring] else [])
  ++ (if (page_data.benefits.getD []).length < 5 then [rec_value_proposition] else [])

/-- `ConversionOptimizer._analyze_social_proof` (rules 7 and 8). -/
def ConversionOptimizer.analyze_social_proof (page_data : PageData) : List OptimizationRecommendation :=
  (if strIn "customer reviews" (strLower (page_data.content.getD "")) = false then [rec_customer_reviews] else [])
  ++ (if strIn "sold out" (strLower (page_data.content.getD "")) = true then [rec_urgency] else [])

/-- `ConversionOptimizer._analyze_call_to_actions` (rules 9 and 10). -/
def ConversionOptimizer.analyze_call_to_actions (page_data : PageData) : List OptimizationRecommendation :=
  (if strIn "add to cart" (strLower (page_data.content.getD "")) = true then [rec_cta_button] else [])
  ++ (if page_data.cta_count.getD 0 < 2 then [rec_multiple_ctas] else [])

/-- `ConversionOptimizer._analyze_content_quality` (rules 11 and 12). -/
def ConversionOptimizer.analyze_content_quality (page_data : PageData) : List OptimizationRecommendation :=
  (if strIn "specifications" (strLower (page_data.content.getD "")) = false then [rec_specifications] else [])
  ++ (if strIn "faq" (strLower (page_data.content.getD "")) = false then [rec_faq] else [])

/-- `ConversionOptimizer._analyze_technical_elements` (rules 13 and 14). -/
def ConversionOptimizer.analyze_technical_elements (page_data : PageData) : List OptimizationRecommendation :=
  (if page_data.mobile_optimized.getD false = false then [rec_mobile] else [])
  ++ (if page_data.load_time.getD 0 > 3 then [rec_page_speed] else [])

/-- The dict `_generate_report` builds for each grouped recommendation:
`asdict(rec)` with `category` and `priority` overwritten by their
enum `.value` strings. -/
structure RecDict where
  category : String
  priority : String
  title : String
  description : String
  impact : String
  implementation : String
  estimated_improvement : String
  code_example : Option String
deriving DecidableEq

/-- Serialization of one recommendation into its grouped-report dict. -/
def toRecDict (rec : OptimizationRecommendation) : RecDict :=
  { category := rec.category.value
    priority := rec.priority.value
    title := rec.title
    description := rec.description
    impact := rec.impact
    implementation := rec.implementation
    estimated_improvement := rec.estimated_improvement
    code_example := rec.code_example }

/-- The dict `_generate_report` builds for each quick win (no `code_example`
key; `priority` and `category` as `.value` strings). -/
structure QuickWin where
  title : String
  description : String
  impact : String
  implementation : String
  estimated_improvement : String
  priority : String
  category : String
deriving DecidableEq

/-- Serialization of one recommendation into its quick-win dict. -/
def toQuickWin (win : OptimizationRecommendation) : QuickWin :=
  { title := win.title
    description := win.description
    impact := win.impact
    implementation := win.implementation
    estimated_improvement := win.estimated_improvement
    priority := win.priority.value
    category := win.category.value }

/-- One step of `priority_counts[key] = priority_counts.get(key, 0) + 1` on an
insertion-ordered dict modelled as an association list: an existing key keeps
its position, a new key is appended at the end. -/
def dictInc : List (String × Nat) → String → List (String × Nat)
  | [], k => [(k, 1)]
  | (k', n) :: rest, k =>
      if k' = k then (k', n + 1) :: rest else (k', n) :: dictInc rest k

/-- One step of `grouped_recommendations[key].append(v)` (with
`grouped_recommendations.setdefault`-style creation) on an insertion-ordered
dict modelled as an association list. -/
def dictPush : List (String × List RecDict) → String → RecDict → List (String × List RecDict)
  | [], k, v => [(k, [v])]
  | (k', vs) :: rest, k, v =>
      if k' = k then (k', vs ++ [v]) :: rest else (k', vs) :: dictPush rest k v

/-- The report dict returned by `ConversionOptimizer.analyze_page`.  Python
dicts keep insertion order, so the two dict-valued fields are association
lists. -/
structure Report where
  analysis_date : String
  total_recommendations : Nat
  priority_distribution : List (String × Nat)
  recommendations_by_category : List (String × List RecDict)
  estimated_total_improvement : String
  implementation_priority : List String
  quick_wins : List QuickWin
deriving DecidableEq

/-- `ConversionOptimizer._get_implementation_priority`, as a function of the
accumulated recommendation list. -/
def ConversionOptimizer.get_implementation_priority
    (recommendations : List OptimizationRecommendation) : List String :=
  let high_priority := recommendations.filter fun r => r.priority == Priority.HIGH
  let medium_priority := recommendations.filter fun r => r.priority == Priority.MEDIUM
  let low_priority := recommendations.filter fun r => r.priority == Priority.LOW
  (high_priority ++ medium_priority ++ low_priority).map fun r => r.title

/-- `ConversionOptimizer._generate_report`, as a function of the accumulated
recommendation list; `datetime.now().isoformat()` is the `analysis_date`
parameter. -/
def ConversionOptimizer.generate_report (analysis_date : String)
    (recommendations : List OptimizationRecommendation) : Report :=
  { analysis_date := analysis_date
    total_recommendations := recommendations.length
    priority_distribution :=
      recommendations.foldl (fun acc rec => dictInc acc rec.priority.value) []
    recommendations_by_category :=
      recommendations.foldl (fun acc rec => dictPush acc rec.category.value (toRecDict rec)) []
    estimated_total_improvement := "40-60% increase in conversion rate"
    implementation_priority := ConversionOptimizer.get_implementation_priority recommendations
    quick_wins :=
      (((recommendations.filter fun r => r.priority == Priority.HIGH).take 3).map toQuickWin) }

/-- The accumulator `self.recommendations` after the seven `_analyze_*` calls
of `ConversionOptimizer.analyze_page`, in append order. -/
def ConversionOptimizer.analyzeRecs (page_data : PageData) : List OptimizationRecommendation :=
  ConversionOptimizer.analyze_trust_elements page_data
  ++ ConversionOptimizer.analyze_user_experience page_data
  ++ ConversionOptimizer.analyze_pricing_strategy page_data
  ++ ConversionOptimizer.analyze_social_proof page_data
  ++ ConversionOptimizer.analyze_call_to_actions page_data
  ++ ConversionOptimizer.analyze_content_quality page_data
  ++ ConversionOptimizer.analyze_technical_elements page_data

/-- `ConversionOptimizer.analyze_page`. -/
def ConversionOptimizer.analyze_page (analysis_date : String) (page_data : PageData) : Report :=
  ConversionOptimizer.generate_report analysis_date (ConversionOptimizer.analyzeRecs page_data)

/-- A report with its timestamp blanked, for comparing two evaluations up to
`analysis_date`. -/
def Report.stripDate (r : Report) : Report :=
  { r with analysis_date := "" }

/-- `page_data` with every absent optional field replaced by its documented
default (empty content, counts 0, load time 0, not mobile optimized, no
benefits). -/
def PageData.withDefaults (p : PageData) : PageData :=
  { content := some (p.content.getD "")
    image_count := some (p.image_count.getD 0)
    cta_count := some (p.cta_count.getD 0)
    load_time := some (p.load_time.getD 0)
    mobile_optimized := some (p.mobile_optimized.getD false)
    benefits := some (p.benefits.getD []) }

/-- The `page_data` dict built by the module-level `analyze_tapeplayers_page`
driver, restricted to the keys the engine reads (`url`, `title` and `price`
are never read).  The triple-quoted `content` string is transcribed exactly,
including its 8-space line indentation. -/
def tapeplayersPageData : PageData :=
  { content := some "\n        Canon Hi8 Camcorder 8mm Tape Player w/ new battery, USB, digitizing software\n        Regular price $249.00\n        Qualifies for free shipping\n        Free returns for 30 days\n        1 year warranty\n        Play and digitize 8mm, Hi8 tapes\n        Shoot authentic vintage videos on tape\n        Safely preserve your tapes at home\n        Includes battery, blank tape, charger\n        Guaranteed 100% working, free returns\n        This bundle includes a fully tested and working 8mm camcorder, and all of the necessary components to playback your 8mm, Hi8 tapes on any TV or PC. You can also digitize your 8mm tapes over USB using any computer and preserve or share your memories.\n        Includes battery and blank tape, so you're ready to start shooting vintage style videos that have a warm fuzzy look and feel. Many of our customers use these vintage camcorders for skate videos, hip-hop music videos, and to capture those iconic moments like weddings, travel, or a child's first camera.\n        This product is backed our 365 day guarantee. Your product is eligible for a replacement or refund within 365 days of receipt if it does not work as expected. Get quick support for claims and free troubleshooting. The guarantee is in conjunction with our standard 30 day free return policy\n        What's in the Box\n        8mm/Hi8 camcorder\n        Battery\n        AC adapter, charger\n        AV RCA cable\n        AV to USB Adapter\n        Blank tape\n        Digitizing software\n        "
    image_count := some 4
    cta_count := some 1
    load_time := some (5 / 2 : ℚ)
    mobile_optimized := some true
    benefits := some [
      "Play and digitize 8mm, Hi8 tapes",
      "Shoot authentic vintage videos on tape",
      "Safely preserve your tapes at home",
      "Includes battery, blank tape, charger",
      "Guaranteed 100% working, free returns"] }

/-- The module-level `analyze_tapeplayers_page` driver: one `analyze_page`
call on `tapeplayersPageData`. -/
def analyze_tapeplayers_page (analysis_date : String) : Report :=
  ConversionOptimizer.analyze_page analysis_date tapeplayersPageData

/-- The all-defaults page of the spec's first scenario: empty content, zero
counts, zero load time, not mobile optimized, no benefits. -/
def c1page : PageData :=
  { content := some ""
    image_count := some 0
    cta_count := some 0
    load_time := some 0
    mobile_optimized := some false
    benefits := some [] }

/-- A fully optimized page: every looked-for keyword present, none of the
presence-triggered keywords, all thresholds met. -/
def c3page : PageData :=
  { content := some "warranty ssl video customer reviews specifications faq"
    image_count := some 3
    cta_count := some 2
    load_time := some 3
    mobile_optimized := some true
    benefits := some ["b1", "b2", "b3", "b4", "b5"] }

/-- Total of the values of a priority-distribution dict. -/
def sumVals (l : List (String × Nat)) : Nat :=
  (l.map fun kv => kv.2).sum

/-- Total length of the groups of a by-category dict. -/
def sumLens (l : List (String × List RecDict)) : Nat :=
  (l.map fun kv => kv.2.length).sum

set_option maxRecDepth 100000

/-- Looking a key up after a `dictInc` step: the bumped key gains one, every
other key is untouched. -/
theorem lookup_dictInc (v k : String) (acc : List (String × Nat)) :
    List.lookup v (dictInc acc k) =
      if v = k then some ((List.lookup v acc).getD 0 + 1) else List.lookup v acc := by
  induction acc with
  | nil =>
      by_cases hv : v = k
      · subst hv
        simp [dictInc, List.lookup]
      · simp [dictInc, List.lookup, hv, beq_eq_false_iff_ne.mpr hv]
  | cons hd tl ih =>
      obtain ⟨k', n⟩ := hd
      by_cases hk : k' = k
      · subst hk
        by_cases hv : v = k'
        · subst hv
          simp [dictInc, List.lookup]
        · simp [dictInc, List.lookup, hv, beq_eq_false_iff_ne.mpr hv]
      · by_cases hv : v = k'
        · subst hv
          have hvk : v ≠ k := hk
          simp [dictInc, List.lookup, hk, hvk]
        · simp [dictInc, List.lookup, hk, hv, beq_eq_false_iff_ne.mpr hv, ih]

/-- Looking a key up in the folded priority-count dict: present with the
exact count when the fold saw the key (or the key was already present),
absent otherwise. -/
theorem lookup_foldl_dictInc (recs : List OptimizationRecommendation) :
    ∀ (acc : List (String × Nat)) (v : String),
      List.lookup v (recs.foldl (fun a r => dictInc a r.priority.value) acc) =
        if (List.lookup v acc).isSome ∨ (recs.countP fun r => r.priority.value == v) ≠ 0
        then some ((List.lookup v acc).getD 0 + (recs.countP fun r => r.priority.value == v))
        else none := by
  induction recs with
  | nil =>
      intro acc v
      cases h : List.lookup v acc <;> simp [h]
  | cons r rs ih =>
      intro acc v
      rw [List.foldl_cons, ih (dictInc acc r.priority.value) v, lookup_dictInc]
      by_cases hv : v = r.priority.value
      · have hp : (r.priority.value == v) = true := by
          rw [hv]
          exact beq_self_eq_true _
        cases h : List.lookup v acc <;>
          simp [hv, h, List.countP_cons, hp] <;> omega
      · have hp : (r.priority.value == v) = false :=
          beq_eq_false_iff_ne.mpr fun e => hv e.symm
        cases h : List.lookup v acc <;> simp [hv, h, List.countP_cons, hp]

/-- A `dictInc` step raises the total of the dict's values by exactly one. -/
theorem sumVals_dictInc (acc : List (String × Nat)) (k : String) :
    sumVals (dictInc acc k) = sumVals acc + 1 := by
  induction acc with
  | nil => rfl
  | cons hd tl ih =>
      obtain ⟨k', n⟩ := hd
      by_cases hk : k' = k
      · simp [dictInc, hk, sumVals]
        omega
      · simp [dictInc, hk, sumVals] at ih ⊢
        omega

/-- Folding `dictInc` over a recommendation list raises the total of the
dict's values by the list's length. -/
theorem sumVals_foldl_dictInc (recs : List OptimizationRecommendation) :
    ∀ acc, sumVals (recs.foldl (fun a r => dictInc a r.priority.value) acc) =
      sumVals acc + recs.length := by
  induction recs with
  | nil =>
      intro acc
      simp
  | cons r rs ih =>
      intro acc
      rw [List.foldl_cons, ih (dictInc acc r.priority.value), sumVals_dictInc]
      simp
      omega

/-- A `dictPush` step raises the total length of the dict's groups by one. -/
theorem sumLens_dictPush (acc : List (String × List RecDict)) (k : String) (rd : RecDict) :
    sumLens (dictPush acc k rd) = sumLens acc + 1 := by
  induction acc with
  | nil => rfl
  | cons hd tl ih =>
      obtain ⟨k', vs⟩ := hd
      by_cases hk : k' = k
      · simp [dictPush, hk, sumLens]
        omega
      · simp [dictPush, hk, sumLens] at ih ⊢
        omega

/-- Folding `dictPush` over a recommendation list raises the total length of
the dict's groups by the list's length. -/
theorem sumLens_foldl_dictPush (recs : List OptimizationRecommendation) :
    ∀ acc, sumLens (recs.foldl (fun a r => dictPush a r.category.value (toRecDict r)) acc) =
      sumLens acc + recs.length := by
  induction recs with
  | nil =>
      intro acc
      simp
  | cons r rs ih =>
      intro acc
      rw [List.foldl_cons, ih (dictPush acc r.category.value (toRecDict r)), sumLens_dictPush]
      simp
      omega

/-- Every recommendation has exactly one of the three priorities, so the
three priority filters partition the list. -/
theorem length_filter_priorities (recs : List OptimizationRecommendation) :
    (recs.filter fun r => r.priority == Priority.HIGH).length
      + (recs.filter fun r => r.priority == Priority.MEDIUM).length
      + (recs.filter fun r => r.priority == Priority.LOW).length = recs.length := by
  induction recs with
  | nil => rfl
  | cons r rs ih =>
      cases hp : r.priority <;> simp [List.filter_cons, hp] <;> omega

/-- Evaluation of the seven analyzers on the demo page: only rules 2, 5, 7,
10, 11 and 12 fire (the content contains "warranty" and "videos", has 4
images, 5 benefits, is mobile optimized and loads in 2.5 s). -/
theorem tapeplayersRecs_eq :
    ConversionOptimizer.analyzeRecs tapeplayersPageData =
      [rec_security_badges, rec_price_anchoring, rec_customer_reviews,
        rec_multiple_ctas, rec_specifications, rec_faq] := by
  have htech : ConversionOptimizer.analyze_technical_elements tapeplayersPageData = [] := by
    unfold ConversionOptimizer.analyze_technical_elements
    rw [if_neg (by decide), if_neg (by norm_num [tapeplayersPageData])]
    rfl
  have htrust : ConversionOptimizer.analyze_trust_elements tapeplayersPageData
      = [rec_security_badges] := by decide
  have hux : ConversionOptimizer.analyze_user_experience tapeplayersPageData = [] := by decide
  have hpricing : ConversionOptimizer.analyze_pricing_strategy tapeplayersPageData
      = [rec_price_anchoring] := by decide
  have hsocial : ConversionOptimizer.analyze_social_proof tapeplayersPageData
      = [rec_customer_reviews] := by decide
  have hcta : ConversionOptimizer.analyze_call_to_actions tapeplayersPageData
      = [rec_multiple_ctas] := by decide
  have hcontent : ConversionOptimizer.analyze_content_quality tapeplayersPageData
      = [rec_specifications, rec_faq] := by decide
  unfold ConversionOptimizer.analyzeRecs
  rw [htrust, hux, hpricing, hsocial, hcta, hcontent, htech]
  rfl

/-- C1 (counterexample): on the spec's all-defaults page (empty content, all
counts 0, not mobile optimized, no benefits) `analyze_page` does NOT return
9 recommendations — rule 10 (`cta_count < 2`) also fires, giving 10. -/
theorem c1_zero_page_not_nine_recommendations :
    (ConversionOptimizer.analyze_page "2024-01-01T00:00:00" c1page).total_recommendations ≠ 9 := by
  decide

/-- C1 (amended): for every PageAttributes whose content contains no
recognized keyword and whose image_count, cta_count and load_time are 0,
mobile_optimized is false and benefits is empty, `analyze_page` fires exactly
rules 1,2,3,4,6,7,10,11,12,13, so the report has total_recommendations == 10
and priority_distribution == (High 5, Medium 4, Low 1). -/
theorem c1_no_keywords_all_zero_fires_ten_rules (t : String) (p : PageData)
    (hwar : strIn "warranty" (strLower (p.content.getD "")) = false)
    (hssl : strIn "ssl" (strLower (p.content.getD "")) = false)
    (hsec : strIn "secure" (strLower (p.content.getD "")) = false)
    (htru : strIn "trusted" (strLower (p.content.getD "")) = false)
    (hvid : strIn "video" (strLower (p.content.getD "")) = false)
    (hreg : strIn "regular price" (strLower (p.content.getD "")) = false)
    (hrev : strIn "customer reviews" (strLower (p.content.getD "")) = false)
    (hsold : strIn "sold out" (strLower (p.content.getD "")) = false)
    (hcart : strIn "add to cart" (strLower (p.content.getD "")) = false)
    (hspec : strIn "specifications" (strLower (p.content.getD "")) = false)
    (hfaq : strIn "faq" (strLower (p.content.getD "")) = false)
    (himg : p.image_count.getD 0 = 0)
    (hcta : p.cta_count.getD 0 = 0)
    (hload : p.load_time.getD 0 = 0)
    (hmob : p.mobile_optimized.getD false = false)
    (hben : p.benefits.getD [] = []) :
    ConversionOptimizer.analyzeRecs p =
      [rec_warranty, rec_security_badges, rec_product_images, rec_demo_video,
        rec_value_proposition, rec_customer_reviews, rec_multiple_ctas,
        rec_specifications, rec_faq, rec_mobile] ∧
    (ConversionOptimizer.analyze_page t p).total_recommendations = 10 ∧
    (ConversionOptimizer.analyze_page t p).priority_distribution =
      [("High", 5), ("Medium", 4), ("Low", 1)] := by
  have h0 : ¬ ((0 : ℚ) > 3) := by norm_num
  have hrecs : ConversionOptimizer.analyzeRecs p =
      [rec_warranty, rec_security_badges, rec_product_images, rec_demo_video,
        rec_value_proposition, rec_customer_reviews, rec_multiple_ctas,
        rec_specifications, rec_faq, rec_mobile] := by
    simp [ConversionOptimizer.analyzeRecs, ConversionOptimizer.analyze_trust_elements,
      ConversionOptimizer.analyze_user_experience, ConversionOptimizer.analyze_pricing_strategy,
      ConversionOptimizer.analyze_social_proof, ConversionOptimizer.analyze_call_to_actions,
      ConversionOptimizer.analyze_content_quality, ConversionOptimizer.analyze_technical_elements,
      hwar, hssl, hsec, htru, hvid, hreg, hrev, hsold, hcart, hspec, hfaq,
      himg, hcta, hload, hmob, hben, h0]
  refine ⟨hrecs, ?_, ?_⟩
  · show (ConversionOptimizer.generate_report t (ConversionOptimizer.analyzeRecs p)).total_recommendations = 10
    rw [hrecs]
    rfl
  · show (ConversionOptimizer.generate_report t (ConversionOptimizer.analyzeRecs p)).priority_distribution
        = [("High", 5), ("Medium", 4), ("Low", 1)]
    rw [hrecs]
    rfl

/-- C1 (witness): the amended theorem applied to the concrete all-defaults
page `c1page`. -/
theorem c1_no_keywords_all_zero_fires_ten_rules_witness :
    ConversionOptimizer.analyzeRecs c1page =
      [rec_warranty, rec_security_badges, rec_product_images, rec_demo_video,
        rec_value_proposition, rec_customer_reviews, rec_multiple_ctas,
        rec_specifications, rec_faq, rec_mobile] ∧
    (ConversionOptimizer.analyze_page "2024-01-01T00:00:00" c1page).total_recommendations = 10 ∧
    (ConversionOptimizer.analyze_page "2024-01-01T00:00:00" c1page).priority_distribution =
      [("High", 5), ("Medium", 4), ("Low", 1)] :=
  c1_no_keywords_all_zero_fires_ten_rules "2024-01-01T00:00:00" c1page
    (by decide) (by decide) (by decide) (by decide) (by decide) (by decide)
    (by decide) (by decide) (by decide) (by decide) (by decide)
    (by decide) (by decide) (by decide) (by decide) (by decide)

/-- C2 (counterexample): on the demo page attributes from the source,
`analyze_page` does NOT return 7 recommendations — the content contains
"videos", hence the substring "video", so rule 4 does not fire and only 6
recommendations are produced. -/
theorem c2_demo_page_not_seven_recommendations :
    (analyze_tapeplayers_page "2024-01-01T00:00:00").total_recommendations ≠ 7 := by
  have h6 : (analyze_tapeplayers_page "2024-01-01T00:00:00").total_recommendations = 6 := by
    show (ConversionOptimizer.generate_report "2024-01-01T00:00:00"
        (ConversionOptimizer.analyzeRecs tapeplayersPageData)).total_recommendations = 6
    rw [tapeplayersRecs_eq]
    rfl
  rw [h6]
  decide

/-- C2 (amended): on the demo page attributes from the source (content
mentioning "regular price" and "1 year warranty" as well as "videos",
image_count 4, cta_count 1, load_time 2.5, mobile_optimized true, 5
benefits), `analyze_page` fires exactly rules 2,5,7,10,11,12, so
total_recommendations == 6. -/
theorem c2_demo_page_fires_six_rules (t : String) :
    ConversionOptimizer.analyzeRecs tapeplayersPageData =
      [rec_security_badges, rec_price_anchoring, rec_customer_reviews,
        rec_multiple_ctas, rec_specifications, rec_faq] ∧
    (analyze_tapeplayers_page t).total_recommendations = 6 := by
  refine ⟨tapeplayersRecs_eq, ?_⟩
  show (ConversionOptimizer.generate_report t
      (ConversionOptimizer.analyzeRecs tapeplayersPageData)).total_recommendations = 6
  rw [tapeplayersRecs_eq]
  rfl

/-- C3: for every PageAttributes whose content contains "warranty", "ssl",
"video", "customer reviews", "specifications" and "faq" (case-insensitively)
but not "regular price", "sold out" or "add to cart", with image_count ≥ 3,
cta_count ≥ 2, at least 5 benefits, mobile_optimized true and
load_time ≤ 3.0, no rule fires: `analyze_page` returns a report with
total_recommendations == 0 and an empty priority_distribution. -/
theorem c3_fully_optimized_page_fires_nothing (t : String) (p : PageData)
    (hwar : strIn "warranty" (strLower (p.content.getD "")) = true)
    (hssl : strIn "ssl" (strLower (p.content.getD "")) = true)
    (hvid : strIn "video" (strLower (p.content.getD "")) = true)
    (hrev : strIn "customer reviews" (strLower (p.content.getD "")) = true)
    (hspec : strIn "specifications" (strLower (p.content.getD "")) = true)
    (hfaq : strIn "faq" (strLower (p.content.getD "")) = true)
    (hreg : strIn "regular price" (strLower (p.content.getD "")) = false)
    (hsold : strIn "sold out" (strLower (p.content.getD "")) = false)
    (hcart : strIn "add to cart" (strLower (p.content.getD "")) = false)
    (himg : 3 ≤ p.image_count.getD 0)
    (hcta : 2 ≤ p.cta_count.getD 0)
    (hben : 5 ≤ (p.benefits.getD []).length)
    (hmob : p.mobile_optimized.getD false = true)
    (hload : p.load_time.getD 0 ≤ 3) :
    ConversionOptimizer.analyzeRecs p = [] ∧
    (ConversionOptimizer.analyze_page t p).total_recommendations = 0 ∧
    (ConversionOptimizer.analyze_page t p).priority_distribution = [] := by
  have hrecs : ConversionOptimizer.analyzeRecs p = [] := by
    simp [ConversionOptimizer.analyzeRecs, ConversionOptimizer.analyze_trust_elements,
      ConversionOptimizer.analyze_user_experience, ConversionOptimizer.analyze_pricing_strategy,
      ConversionOptimizer.analyze_social_proof, ConversionOptimizer.analyze_call_to_actions,
      ConversionOptimizer.analyze_content_quality, ConversionOptimizer.analyze_technical_elements,
      hwar, hssl, hvid, hrev, hspec, hfaq, hreg, hsold, hcart, hmob,
      Nat.not_lt.mpr himg, Nat.not_lt.mpr hcta, Nat.not_lt.mpr hben, not_lt.mpr hload]
  refine ⟨hrecs, ?_, ?_⟩
  · show (ConversionOptimizer.generate_report t (ConversionOptimizer.analyzeRecs p)).total_recommendations = 0
    rw [hrecs]
    rfl
  · show (ConversionOptimizer.generate_report t (ConversionOptimizer.analyzeRecs p)).priority_distribution = []
    rw [hrecs]
    rfl

/-- C3 (witness): the theorem applied to the concrete fully optimized page
`c3page`. -/
theorem c3_fully_optimized_page_fires_nothing_witness :
    ConversionOptimizer.analyzeRecs c3page = [] ∧
    (ConversionOptimizer.analyze_page "2024-01-01T00:00:00" c3page).total_recommendations = 0 ∧
    (ConversionOptimizer.analyze_page "2024-01-01T00:00:00" c3page).priority_distribution = [] :=
  c3_fully_optimized_page_fires_nothing "2024-01-01T00:00:00" c3page
    (by decide) (by decide) (by decide) (by decide) (by decide) (by decide)
    (by decide) (by decide) (by decide) (by decide) (by decide)
    (by decide) (by decide) (by decide)

/-- C4: for every PageAttributes, the report's implementation_priority is
exactly the concatenation of the titles of the fired High-priority
recommendations, then the Medium ones, then the Low ones, each sublist in
rule-table (accumulator) order. -/
theorem c4_implementation_priority_is_high_medium_low_titles (t : String) (p : PageData) :
    (ConversionOptimizer.analyze_page t p).implementation_priority =
      ((ConversionOptimizer.analyzeRecs p).filter fun r => r.priority == Priority.HIGH).map (fun r => r.title)
      ++ ((ConversionOptimizer.analyzeRecs p).filter fun r => r.priority == Priority.MEDIUM).map (fun r => r.title)
      ++ ((ConversionOptimizer.analyzeRecs p).filter fun r => r.priority == Priority.LOW).map (fun r => r.title) := by
  show ConversionOptimizer.get_implementation_priority (ConversionOptimizer.analyzeRecs p) = _
  unfold ConversionOptimizer.get_implementation_priority
  simp [List.map_append]

/-- C5: for every PageAttributes, the report's quick_wins has length ≤ 3 and
equals the first (up to 3) High-priority fired recommendations in rule-table
order — its length is min 3 (number of High-priority fired rules). -/
theorem c5_quick_wins_first_three_high (t : String) (p : PageData) :
    (ConversionOptimizer.analyze_page t p).quick_wins.length ≤ 3 ∧
    (ConversionOptimizer.analyze_page t p).quick_wins =
      (((ConversionOptimizer.analyzeRecs p).filter fun r => r.priority == Priority.HIGH).take 3).map toQuickWin ∧
    (ConversionOptimizer.analyze_page t p).quick_wins.length =
      min 3 ((ConversionOptimizer.analyzeRecs p).filter fun r => r.priority == Priority.HIGH).length := by
  refine ⟨?_, rfl, ?_⟩
  · show ((((ConversionOptimizer.analyzeRecs p).filter fun r => r.priority == Priority.HIGH).take 3).map toQuickWin).length ≤ 3
    rw [List.length_map, List.length_take]
    exact Nat.min_le_left _ _
  · show ((((ConversionOptimizer.analyzeRecs p).filter fun r => r.priority == Priority.HIGH).take 3).map toQuickWin).length = _
    rw [List.length_map, List.length_take]

/-- C6: for every PageAttributes, two calls to `analyze_page` with identical
input yield identical reports apart from the analysis_date timestamp. -/
theorem c6_reports_identical_up_to_timestamp (t₁ t₂ : String) (p : PageData) :
    (ConversionOptimizer.analyze_page t₁ p).stripDate =
      (ConversionOptimizer.analyze_page t₂ p).stripDate := rfl

/-- C7: for every PageAttributes, the report's priority_distribution maps
each priority level to the number of fired recommendations at that level,
and contains no entry for a priority level with zero fired recommendations. -/
theorem c7_priority_distribution_counts (t : String) (p : PageData) (v : String) :
    List.lookup v ((ConversionOptimizer.analyze_page t p).priority_distribution) =
      (if ((ConversionOptimizer.analyzeRecs p).countP fun r => r.priority.value == v) = 0
       then none
       else some ((ConversionOptimizer.analyzeRecs p).countP fun r => r.priority.value == v)) := by
  show List.lookup v
      ((ConversionOptimizer.analyzeRecs p).foldl (fun a r => dictInc a r.priority.value) []) = _
  rw [lookup_foldl_dictInc (ConversionOptimizer.analyzeRecs p) [] v]
  by_cases h : ((ConversionOptimizer.analyzeRecs p).countP fun r => r.priority.value == v) = 0 <;>
    simp [h, List.lookup]

/-- C8: `analyze_page` is total by construction (it always returns a
`Report`), and an absent optional field behaves exactly as its documented
default: a page with every field defaulted via `getD` is analyzed
identically, and the fully absent page is analyzed identically to the page
carrying the documented default values. -/
theorem c8_absent_fields_use_documented_defaults (t : String) (p : PageData) :
    ConversionOptimizer.analyze_page t p = ConversionOptimizer.analyze_page t p.withDefaults ∧
    ConversionOptimizer.analyze_page t {} =
      ConversionOptimizer.analyze_page t
        { content := some "", image_count := some 0, cta_count := some 0,
          load_time := some 0, mobile_optimized := some false, benefits := some [] } :=
  ⟨rfl, rfl⟩

/-- C9: in every report produced by `analyze_page`, total_recommendations
equals the sum of the values of priority_distribution, the sum over
categories of the group lengths of recommendations_by_category, and the
length of implementation_priority. -/
theorem c9_report_counts_consistent (t : String) (p : PageData) :
    (ConversionOptimizer.analyze_page t p).total_recommendations =
      sumVals (ConversionOptimizer.analyze_page t p).priority_distribution ∧
    (ConversionOptimizer.analyze_page t p).total_recommendations =
      sumLens (ConversionOptimizer.analyze_page t p).recommendations_by_category ∧
    (ConversionOptimizer.analyze_page t p).total_recommendations =
      (ConversionOptimizer.analyze_page t p).implementation_priority.length := by
  refine ⟨?_, ?_, ?_⟩
  · show (ConversionOptimizer.analyzeRecs p).length =
      sumVals ((ConversionOptimizer.analyzeRecs p).foldl (fun a r => dictInc a r.priority.value) [])
    rw [sumVals_foldl_dictInc (ConversionOptimizer.analyzeRecs p) []]
    simp [sumVals]
  · show (ConversionOptimizer.analyzeRecs p).length =
      sumLens ((ConversionOptimizer.analyzeRecs p).foldl
        (fun a r => dictPush a r.category.value (toRecDict r)) [])
    rw [sumLens_foldl_dictPush (ConversionOptimizer.analyzeRecs p) []]
    simp [sumLens]
  · show (ConversionOptimizer.analyzeRecs p).length =
      (ConversionOptimizer.get_implementation_priority (ConversionOptimizer.analyzeRecs p)).length
    unfold ConversionOptimizer.get_implementation_priority
    have h := length_filter_priorities (ConversionOptimizer.analyzeRecs p)
    simp only [List.length_map, List.length_append]
    omega

/-- C10: in every report produced by `analyze_page`, the quick_wins titles
are exactly the first min 3 (number of High-priority fired rules) elements
of implementation_priority; in particular they are a prefix of it. -/
theorem c10_quick_wins_titles_are_priority_list_head (t : String) (p : PageData) :
    ((ConversionOptimizer.analyze_page t p).quick_wins.map fun w => w.title) =
      (ConversionOptimizer.analyze_page t p).implementation_priority.take
        (min 3 ((ConversionOptimizer.analyzeRecs p).filter fun r => r.priority == Priority.HIGH).length) ∧
    ∃ rest, (ConversionOptimizer.analyze_page t p).implementation_priority =
      ((ConversionOptimizer.analyze_page t p).quick_wins.map fun w => w.title) ++ rest := by
  have hqw : ((ConversionOptimizer.analyze_page t p).quick_wins.map fun w => w.title) =
      (((ConversionOptimizer.analyzeRecs p).filter fun r => r.priority == Priority.HIGH).map
        (fun r => r.title)).take 3 := by
    show ((((ConversionOptimizer.analyzeRecs p).filter fun r => r.priority == Priority.HIGH).take 3).map
        toQuickWin).map (fun w => w.title) = _
    rw [List.map_map, List.map_take]
    rfl
  have himpl : (ConversionOptimizer.analyze_page t p).implementation_priority =
      (((ConversionOptimizer.analyzeRecs p).filter fun r => r.priority == Priority.HIGH).map
        (fun r => r.title))
      ++ ((((ConversionOptimizer.analyzeRecs p).filter fun r => r.priority == Priority.MEDIUM).map
        (fun r => r.title))
      ++ (((ConversionOptimizer.analyzeRecs p).filter fun r => r.priority == Priority.LOW).map
        (fun r => r.title))) := by
    show ConversionOptimizer.get_implementation_priority (ConversionOptimizer.analyzeRecs p) = _
    unfold ConversionOptimizer.get_implementation_priority
    simp [List.map_append]
  constructor
  · rw [hqw, himpl, List.take_append_eq_append_take, List.length_map,
      Nat.sub_eq_zero_of_le (Nat.min_le_right 3 _), List.take_zero, List.append_nil]
    rw [← List.length_map (((ConversionOptimizer.analyzeRecs p).filter
        fun r => r.priority == Priority.HIGH)) (fun r => r.title)]
    rw [← List.take_take, List.take_length]
  · refine ⟨((((ConversionOptimizer.analyzeRecs p).filter fun r => r.priority == Priority.HIGH).map
        (fun r => r.title)).drop 3)
      ++ ((((ConversionOptimizer.analyzeRecs p).filter fun r => r.priority == Priority.MEDIUM).map
        (fun r => r.title))
      ++ (((ConversionOptimizer.analyzeRecs p).filter fun r => r.priority == Priority.LOW).map
        (fun r => r.title))), ?_⟩
    rw [hqw, himpl]
    conv_rhs => rw [← List.append_assoc]
    rw [List.take_append_drop]

end ConvOpt
